import Mathlib

/-!
Verification of the `uiwrapper` table / locator / element-access layer.

Shallow embedding of the Python sources:
  * `uiwrapper/alerts/components/table.py`  (class `AlertTable`)
  * `uiwrapper/actions/locator.py`          (class `Locator`)
  * `uiwrapper/alerts/actions/alert_action_component.py`
                                            (class `AlertComponentAction`)

DOM state is modelled by explicit data (header cells, pagination controls,
pages of row handles, column texts); browser waits and finds are modelled by
success flags or by the data itself; Python exceptions are modelled with
`Except String`.  Click side effects are recorded as traces (lists of the
clicked items) so that "how many clicks were issued" is provable.
-/

namespace UIWrapper

/-! ## Python / JS string primitives used by the source

All string manipulation is written with structural recursion over the
underlying character lists, so every definition evaluates by `rfl`/`decide`. -/

/-- Python `value in text` (case-sensitive substring containment), on
character lists: `pat` occurs in `l` iff it is a prefix of some suffix. -/
def listContainsSub (pat : List Char) : List Char → Bool
  | [] => pat.isEmpty
  | c :: rest => pat.isPrefixOf (c :: rest) || listContainsSub pat rest

/-- Python `pat in s` for strings. -/
def strContains (s pat : String) : Bool :=
  listContainsSub pat.data s.data

/-- Python `str.lower()` (character-wise). -/
def pyLower (s : String) : String :=
  ⟨s.data.map Char.toLower⟩

/-- Python `str.strip()` / JS `String.trim()`: drop whitespace at both ends. -/
def pyStrip (s : String) : String :=
  ⟨((s.data.dropWhile Char.isWhitespace).reverse.dropWhile Char.isWhitespace).reverse⟩

/-- Python `column.lower().replace(" ", "_")` from `AlertTable._column_value`
(line 249).  `str.replace` with the one-character pattern `" "` rewrites every
space, i.e. maps each character individually. -/
def normalizeColumn (column : String) : String :=
  ⟨(pyLower column).data.map (fun c => if c = ' ' then '_' else c)⟩

/-- Splits a character list at whitespace, like Python `s.split()` once empty
words are dropped. -/
def splitWsAux : List Char → List Char → List (List Char)
  | [], acc => [acc.reverse]
  | c :: rest, acc =>
    if c.isWhitespace then acc.reverse :: splitWsAux rest []
    else splitWsAux rest (c :: acc)

/-- Joins words with single spaces. -/
def joinWords : List (List Char) → List Char
  | [] => []
  | [w] => w
  | w :: ws => w ++ ' ' :: joinWords ws

/-- Embeds `AlertComponentAction.get_element_text`: Python
`re.sub(r"\s+", " ", inner_text).strip()` — every maximal run of whitespace
becomes one space and the ends are trimmed; equivalently, split on whitespace,
drop the empty pieces, re-join with single spaces. -/
def get_element_text (innerText : String) : String :=
  ⟨joinWords ((splitWsAux innerText.data []).filter (fun w => w ≠ []))⟩

/-! ## Sorting (`AlertTable.sort_table`, table.py lines 369-403)

A header cell is its Selenium `.text` plus the `data-test-sort-dir`
attribute (`get_attribute` returns `None` when absent, hence `Option`). -/

structure TableHeader where
  text : String
  sortDir : Option String
deriving DecidableEq, Repr

/--
Loop body of `sort_table`.  For each `th` in the header list, when the header
text is non-empty and matches `column` case-insensitively:
  * requested order equals current `data-test-sort-dir`: return `True`
    with no click;
  * requested order is the exact opposite of the current one: one click,
    return `True`;
  * otherwise (indeterminate state): click once; then `return True` is
    executed only under `if order == "desc"` after a second click — on the
    `"asc"` path the Python `for` loop simply continues with the next header.
If the loop finishes without returning, the `for/else` raises
`ValueError("Failed to sort the {column}")`.
The first component of the result is the click trace (each entry the header
clicked).
-/
def sortTableGo (column order : String) :
    List TableHeader → List TableHeader → List TableHeader × Except String Bool
  | [], clicks => (clicks, Except.error ("Failed to sort the " ++ column))
  | th :: rest, clicks =>
    if th.text ≠ "" ∧ pyLower th.text = pyLower column then
      if (order = "asc" ∧ th.sortDir = some "asc") ∨
          (order = "desc" ∧ th.sortDir = some "desc") then
        (clicks, Except.ok true)
      else if (order = "asc" ∧ th.sortDir = some "desc") ∨
          (order = "desc" ∧ th.sortDir = some "asc") then
        (clicks ++ [th], Except.ok true)
      else
        if order = "desc" then
          (clicks ++ [th, th], Except.ok true)
        else
          sortTableGo column order rest (clicks ++ [th])
    else
      sortTableGo column order rest clicks

/-- Embeds `AlertTable.sort_table(column, order)` over the list of header cells. -/
def sort_table (headers : List TableHeader) (column order : String) :
    List TableHeader × Except String Bool :=
  sortTableGo column order headers []

/-! ## Column selectors (`AlertTable._column_value`, table.py lines 239-256) -/

/-- The fixed selector registered as `"status_column"` in `AlertTable.__init__`. -/
def statusColumnSelector : String := " [data-test=\"status\"]"

/-- The selector `_column_value` resolves for a column: normalize the name;
the `"status"` column uses the dedicated fixed sub-selector, any other column
uses `self.value + " td.cell-" + column` (template `COLS = " td.cell-{}"`
formatted with the normalized name, registered under the `"temp_col"` key). -/
def columnSelector (root column : String) : String :=
  let c := normalizeColumn column
  if c = "status" then statusColumnSelector
  else root ++ (" td.cell-" ++ c)

/-! ## Pagination (`AlertTable.next_page`, table.py lines 281-306)

A pagination control (`self.value + " .pull-right li a"`) is modelled by its
inner text and its Selenium `is_displayed()` / `is_enabled()` flags. -/

structure PageCtl where
  innerText : String
  displayed : Bool
  enabled : Bool
deriving DecidableEq, Repr

/-- Embeds `AlertTable._is_element_clickable` (lines 442-456):
`element.is_displayed() and element.is_enabled()`. -/
def isElementClickable (ctl : PageCtl) : Bool :=
  ctl.displayed && ctl.enabled

/-- The loop test of `next_page`:
`self.get_element_text(page).lower() == "next"`. -/
def isNextLabel (ctl : PageCtl) : Bool :=
  pyLower (get_element_text ctl.innerText) = "next"

/--
Loop of `next_page` over a non-empty control list: the first control whose
`get_element_text(..).lower()` equals `"next"` decides the result — clickable:
click it and return `True`; not clickable: return `False`.  When no control
has the label, the `for/else` raises
`ValueError("page: {} is not found.".format(page))` (the Python message
interpolates the repr of the last control; the model keeps a fixed message).
The second component of an `ok` result is the click trace.
-/
def nextPageGo : List PageCtl → Except String (Bool × List PageCtl)
  | [] => Except.error "page is not found."
  | ctl :: rest =>
    if isNextLabel ctl then
      if isElementClickable ctl then Except.ok (true, [ctl])
      else Except.ok (false, [])
    else nextPageGo rest

/-- Embeds `AlertTable.next_page()`: when `find_elements` yields an empty control
list, return `False` immediately; otherwise run the loop. -/
def next_page (elements : List PageCtl) : Except String (Bool × List PageCtl) :=
  match elements with
  | [] => Except.ok (false, [])
  | _ :: _ => nextPageGo elements

/-! ## Row enumeration (table.py lines 66-95)

A fixed, unchanging DOM fixture is a list of pages, each a list of row
handles; `next_page` succeeds exactly when a further page remains. -/

/-- Embeds `AlertTable.get_list_of_rows(rows)` (lines 66-83): eager accumulation —
extend `rows` with the current page's row elements, and recurse when
`next_page()` returns `True` (i.e. more pages remain in the fixture). -/
def get_list_of_rows {α : Type} : List (List α) → List α → List α
  | [], rows => rows
  | p :: rest, rows =>
    match rest with
    | [] => rows ++ p
    | _ :: _ => get_list_of_rows rest (rows ++ p)

/-- Embeds `AlertTable.get_total_rows_elements()` (lines 85-95), collected to
completion: yield the current page's row elements, then, when `next_page()`
returns `True`, the recursive generator's elements. -/
def get_total_rows_elements {α : Type} : List (List α) → List α
  | [] => []
  | p :: rest =>
    p ++ (match rest with
      | [] => []
      | _ :: _ => get_total_rows_elements rest)

/-! ## Row lookup (`AlertTable.get_row`, table.py lines 97-117)

A row is represented by the text `_column_value(row, column)` yields for the
requested column; `get_row` returns the index of the matched row in the
stream.  The `for/else` raises once the stream is exhausted. -/

/-- Loop of `get_row`: in `is_search` mode the test is Python
`value in self._column_value(row, column)` (substring containment), otherwise
`self._column_value(row, column) == value` (exact equality); the first match
is returned.  Exhaustion raises
`ValueError("{} row not found in table".format(value))`. -/
def getRowGo (value : String) (is_search : Bool) :
    List String → Nat → Except String Nat
  | [], _ => Except.error (value ++ " row not found in table")
  | colText :: rest, i =>
    if is_search then
      if strContains colText value then Except.ok i
      else getRowGo value is_search rest (i + 1)
    else
      if colText = value then Except.ok i
      else getRowGo value is_search rest (i + 1)

/-- Embeds `AlertTable.get_row(value, column, is_search)` over the stream of
column texts. -/
def get_row (rowCols : List String) (value : String) (is_search : Bool) :
    Except String Nat :=
  getRowGo value is_search rowCols 0

/-- The membership test `get_row` applies to one row's column text:
substring containment in search mode, exact equality otherwise. -/
def rowMatches (value : String) (is_search : Bool) (t : String) : Bool :=
  if is_search then strContains t value else decide (t = value)

/-! ## Locator registry (`Locator.get_locator`, locator.py lines 25-38)

A registry is an association list from names to `[by, value]` lists (the
source stores Python lists).  `get_locator` does
`locator = self.locators.get(name, [])` and then immediately logs
`"...".format(name, locator[0], locator[1])` — for an unknown name the
default `[]` makes `locator[0]` raise `IndexError` inside `get_locator`
itself, before anything is returned. -/

def get_locator (locators : List (String × List String)) (name : String) :
    Except String (List String) :=
  let locator := (List.lookup name locators).getD []
  match locator.get? 0, locator.get? 1 with
  | some _, some _ => Except.ok locator
  | _, _ => Except.error "IndexError: list index out of range"

/-! ## Element façade (`AlertComponentAction`, alert_action_component.py) -/

/-- Observable side effects of `enter_text` on the target field. -/
inductive TextEvent where
  | clear : TextEvent
  | keys : String → TextEvent
deriving DecidableEq, Repr

/-- Embeds `AlertComponentAction.enter_text(locator, text)` (lines 91-116):
`by, value = self.locator.get_locator(locator)` (two-element unpacking), then
`element = self.get_element(by, value)` (presence wait, modelled by the
`present` flag), then `element.clear()` **unless** `value == "password"`,
then `element.send_keys(text)`.  Any exception is logged and re-raised. -/
def enter_text (locators : List (String × List String)) (lname text : String)
    (present : Bool) : Except String (List TextEvent) :=
  match get_locator locators lname with
  | Except.error e => Except.error e
  | Except.ok locator =>
    match locator with
    | [_b, v] =>
      if present then
        if v ≠ "password" then Except.ok [TextEvent.clear, TextEvent.keys text]
        else Except.ok [TextEvent.keys text]
      else Except.error "TimeoutException: element not present"
    | _ => Except.error "ValueError: not enough values to unpack"

/-- One piece of an element's `textContent`, tagged with whether it lies
inside a `span[data-test="screen-reader-content"]` descendant. -/
structure TextPiece where
  screenReader : Bool
  content : String
deriving DecidableEq, Repr

/-- The scripted DOM read in `AlertComponentAction.get_text`: remove every
`span[data-test="screen-reader-content"]` descendant, then return
`label.textContent.trim()` — i.e. the remaining pieces concatenated in
document order, trimmed. -/
def strippedText (pieces : List TextPiece) : String :=
  pyStrip ⟨(pieces.filterMap
    (fun p => if p.screenReader then none else some p.content.data)).flatten⟩

/-- Embeds `AlertComponentAction.get_text(locator)` (lines 194-217): run the
stripping script, then return the text when `element_text.lower() != ""`,
else the sentinel `"element text not found of locator={}".format(locator)`. -/
def get_text (lname : String) (pieces : List TextPiece) : String :=
  let element_text := strippedText pieces
  if pyLower element_text ≠ "" then element_text
  else "element text not found of locator=" ++ lname

/-! ## Delete workflow (`AlertTable.delete_row`, table.py lines 157-192)

The branch bodies of `delete_row` reference `self.delete_btn`, `self.close`
and `self.cancel`.  Python resolves these against the instance and the class
hierarchy `AlertTable → AlertBaseComponent → AlertComponentAction`; the list
below is the complete set of attribute names those three classes define
(class attributes, `__init__` instance attributes and methods, from
table.py, alert_base.py and alert_action_component.py).  None of the three
referenced names is among them, so each branch raises `AttributeError`,
which the enclosing `try/except` converts to a logged `return False`. -/

def alertTableAttrs : List String :=
  [ -- class attributes of AlertTable
   "ROWS", "COLS", "COLS_NO", "EDIT_BUTTON", "ENABLE_DISABLE", "CLONE_BUTTON",
   "MOVE_BUTTON", "SEARCH_BUTTON", "DELETE_POPUP", "DELETE_BUTTON",
   "DELETE_CANCEL", "DELETE_CLOSE", "CLEAR_FILTER", "ALERT_KEY", "SWITCH_PAGE",
   -- instance attributes set in the constructors, and the constructor
   "name", "value", "driver", "wait", "action", "locator", "__init__",
   -- methods of AlertTable
   "get_list_of_rows", "get_total_rows_elements", "get_row", "get_rows_count",
   "get_expanded_row_value", "delete_row", "edit_row", "clone_row",
   "get_column_list", "get_column_value", "_column_value", "search",
   "clear_search", "next_page", "prev_page", "switch_to", "get_input_count",
   "sort_table", "get_headers", "update_status", "_is_element_clickable",
   "_wait_to_be_stale",
   -- methods of AlertBaseComponent
   "get_alert_help_text_list", "get_alert_labels_list",
   -- methods of AlertComponentAction
   "get_element", "_find_element", "_find_elements", "click_element",
   "enter_text", "wait_for_element", "wait_for_element_invisible",
   "wait_for_element_clickable", "_hover_element", "get_text",
   "get_element_text", "get_updated_message"]

/-- Python attribute lookup `self.<attr>` on an `AlertTable` instance:
raises `AttributeError` when the name is not defined on the instance or its
class hierarchy. -/
def getattrSelf (attr : String) : Except String Unit :=
  if alertTableAttrs.contains attr then Except.ok ()
  else Except.error ("AttributeError: AlertTable object has no attribute " ++ attr)

/-- Success flags for the driver-dependent steps of `delete_row`. -/
structure DeleteEnv where
  tableVisible : Bool  -- wait_for_element("table_container")
  rowFound : Bool      -- get_row(input_name)
  delBtnFound : Bool   -- del_row.find_element(delete_btn locator)
  popupAppears : Bool  -- wait_for_element("popup")
  popupCloses : Bool   -- wait_for_element_invisible("popup")
deriving DecidableEq, Repr

/-- A driver-dependent step: succeeds or raises. -/
def stepOk (ok : Bool) (err : String) : Except String Unit :=
  if ok then Except.ok () else Except.error err

/-- The `if action == "delete" / elif "close" / elif "cancel" / else` branch
of `delete_row`: each arm dereferences an attribute of `self`
(`self.delete_btn.click()`, `self.close()`, `self.cancel()`; the default arm
sleeps and calls `self.cancel()`). -/
def deleteRowActionStep (action : Option String) : Except String Unit :=
  match action with
  | some a =>
    if a = "delete" then getattrSelf "delete_btn"
    else if a = "close" then getattrSelf "close"
    else if a = "cancel" then getattrSelf "cancel"
    else getattrSelf "cancel"
  | none => getattrSelf "cancel"

/-- The `try:` body of `delete_row` in source order. -/
def deleteRowBody (env : DeleteEnv) (action : Option String) :
    Except String Unit := do
  stepOk env.tableVisible "TimeoutException: table_container is not visible"
  stepOk env.rowFound "ValueError: row not found in table"
  stepOk env.delBtnFound "NoSuchElementException: a.delete"
  stepOk env.popupAppears "TimeoutException: popup is not visible"
  deleteRowActionStep action
  stepOk env.popupCloses "TimeoutException: popup did not become invisible"

/-- Embeds `AlertTable.delete_row(input_name, action)`: the `try/except` converts
any exception in the body to `return False`; a completed body returns
`True`. -/
def delete_row (env : DeleteEnv) (action : Option String) : Bool :=
  match deleteRowBody env action with
  | Except.ok _ => true
  | Except.error _ => false

/-! ## Helper lemmas -/

/-- Lowercasing maps the empty string to the empty string and nothing else. -/
lemma pyLower_eq_empty_iff (s : String) : pyLower s = "" ↔ s = "" := by
  simp [pyLower, String.ext_iff]

/-- The eager accumulator `get_list_of_rows` prepends its `rows` argument to
the rows the lazy generator yields. -/
lemma get_list_of_rows_eq_append {α : Type} :
    ∀ (pages : List (List α)) (rows : List α),
      get_list_of_rows pages rows = rows ++ get_total_rows_elements pages := by
  intro pages
  induction pages with
  | nil => intro rows; simp [get_list_of_rows, get_total_rows_elements]
  | cons p rest ih =>
    intro rows
    cases rest with
    | nil => simp [get_list_of_rows, get_total_rows_elements]
    | cons q qs =>
      have h1 : get_list_of_rows (p :: q :: qs) rows
          = get_list_of_rows (q :: qs) (rows ++ p) := rfl
      have h2 : get_total_rows_elements (p :: q :: qs)
          = p ++ get_total_rows_elements (q :: qs) := rfl
      rw [h1, h2, ih, List.append_assoc]

/-- The `next_page` loop is first-match on the `"next"` label: the first
control carrying the label decides the outcome, and the `for/else` raises
when no control carries it. -/
lemma nextPageGo_eq_find (ctls : List PageCtl) :
    nextPageGo ctls =
      match ctls.find? isNextLabel with
      | none => Except.error "page is not found."
      | some c =>
        if isElementClickable c then Except.ok (true, [c])
        else Except.ok (false, []) := by
  induction ctls with
  | nil => rfl
  | cons c rest ih =>
    by_cases h : isNextLabel c = true
    · simp [nextPageGo, h]
    · simp only [nextPageGo]
      rw [if_neg (by simpa using h), ih, List.find?_cons_of_neg _ (by simpa using h)]

/-- A cons-step of the `get_row` loop, expressed through `rowMatches`. -/
lemma getRowGo_cons (value : String) (s : Bool) (t : String)
    (rest : List String) (k : Nat) :
    getRowGo value s (t :: rest) k =
      if rowMatches value s t then Except.ok k
      else getRowGo value s rest (k + 1) := by
  cases s <;> simp [getRowGo, rowMatches]

/-- A successful `get_row` scan returns the index of the first matching row:
the row at the returned index matches and every earlier row does not. -/
lemma getRowGo_ok_spec (value : String) (s : Bool) :
    ∀ (rows : List String) (k i : Nat),
      getRowGo value s rows k = Except.ok i →
      ∃ j, j < rows.length ∧ i = k + j ∧
        rowMatches value s (rows.getD j "") = true ∧
        ∀ m, m < j → rowMatches value s (rows.getD m "") = false := by
  intro rows
  induction rows with
  | nil => intro k i h; simp [getRowGo] at h
  | cons t rest ih =>
    intro k i h
    rw [getRowGo_cons] at h
    by_cases hm : rowMatches value s t = true
    · rw [if_pos hm] at h
      obtain rfl : k = i := by
        injection h
      refine ⟨0, by simp, by simp, by simpa using hm, ?_⟩
      intro m hm0
      exact absurd hm0 (Nat.not_lt_zero m)
    · rw [if_neg hm] at h
      obtain ⟨j, hj, hi, hmj, hprev⟩ := ih (k + 1) i h
      refine ⟨j + 1, by simp; omega, by omega, by simpa using hmj, ?_⟩
      intro m hmlt
      cases m with
      | zero =>
        simp only [List.getD_cons_zero]
        cases hb : rowMatches value s t with
        | true => exact absurd hb hm
        | false => rfl
      | succ m' =>
        simp only [List.getD_cons_succ]
        exact hprev m' (Nat.lt_of_succ_lt_succ hmlt)

/-- When no row matches, the `get_row` loop exhausts the stream and raises. -/
lemma getRowGo_exhausted (value : String) (s : Bool) :
    ∀ (rows : List String) (k : Nat),
      (∀ t ∈ rows, rowMatches value s t = false) →
      getRowGo value s rows k
        = Except.error (value ++ " row not found in table") := by
  intro rows
  induction rows with
  | nil => intro k _; rfl
  | cons t rest ih =>
    intro k h
    rw [getRowGo_cons,
      if_neg (by rw [h t (List.mem_cons_self t rest)]; simp)]
    exact ih (k + 1) (fun u hu => h u (List.mem_cons_of_mem t hu))

/-- When no non-empty header text matches the column, the `sort_table` loop
issues no click and its `for/else` raises. -/
lemma sortTableGo_no_match (column order : String) :
    ∀ (headers : List TableHeader) (clicks : List TableHeader),
      (∀ th ∈ headers, ¬(th.text ≠ "" ∧ pyLower th.text = pyLower column)) →
      sortTableGo column order headers clicks
        = (clicks, Except.error ("Failed to sort the " ++ column)) := by
  intro headers
  induction headers with
  | nil => intro clicks _; rfl
  | cons th rest ih =>
    intro clicks h
    simp only [sortTableGo]
    rw [if_neg (h th (List.mem_cons_self th rest))]
    exact ih clicks (fun u hu => h u (List.mem_cons_of_mem th hu))

/-- Every arm of the `delete_row` action branch dereferences an attribute
that no class in the `AlertTable` hierarchy defines, so it raises. -/
lemma deleteRowActionStep_fails (action : Option String) :
    ∃ e, deleteRowActionStep action = Except.error e := by
  cases action with
  | none => exact ⟨_, rfl⟩
  | some a =>
    simp only [deleteRowActionStep]
    by_cases h1 : a = "delete"
    · rw [if_pos h1]; exact ⟨_, rfl⟩
    · rw [if_neg h1]
      by_cases h2 : a = "close"
      · rw [if_pos h2]; exact ⟨_, rfl⟩
      · rw [if_neg h2]
        by_cases h3 : a = "cancel"
        · rw [if_pos h3]; exact ⟨_, rfl⟩
        · rw [if_neg h3]; exact ⟨_, rfl⟩

end UIWrapper

namespace UIWrapper

/-! ## Claim theorems -/

/-- C1: on a header whose `data-test-sort-dir` attribute is indeterminate
(`None`), `sort_table(column, "asc")` clicks the matching header once and
then — missing the `return True` that the `"desc"` path has — falls through
the loop and raises `ValueError("Failed to sort the ...")`, while
`sort_table(column, "desc")` clicks twice and returns `True`.  The
already-sorted and opposite-sorted branches behave as documented.  This
contradicts the function's own docstring ("True if sorting is successful,
otherwise raises"). -/
theorem sort_table_indeterminate_asc_raises :
    sort_table [⟨"Name", none⟩] "name" "asc"
        = ([⟨"Name", none⟩], Except.error "Failed to sort the name") ∧
    sort_table [⟨"Name", none⟩] "name" "desc"
        = ([⟨"Name", none⟩, ⟨"Name", none⟩], Except.ok true) ∧
    sort_table [⟨"Name", some "asc"⟩] "name" "asc" = ([], Except.ok true) ∧
    sort_table [⟨"Name", some "asc"⟩] "name" "desc"
        = ([⟨"Name", some "asc"⟩], Except.ok true) :=
  ⟨rfl, rfl, rfl, rfl⟩

/-- C3 counterexample: `"sta tus"` does **not** normalize to the `"status"`
selector — `lower().replace(" ", "_")` yields `"sta_tus"`, so the generic
`td.cell-sta_tus` selector is produced, not the dedicated status selector. -/
theorem columnSelector_sta_tus_differs :
    columnSelector "#table" "sta tus" ≠ columnSelector "#table" "status" := by
  decide

/-- C3 amended: `"Status"` and `"status"` both normalize to the dedicated
status selector, but `"sta tus"` normalizes to `"sta_tus"` and yields the
generic cell selector instead. -/
theorem columnSelector_normalization (root : String) :
    columnSelector root "Status" = statusColumnSelector ∧
    columnSelector root "status" = statusColumnSelector ∧
    columnSelector root "sta tus" = root ++ " td.cell-sta_tus" := by
  have hS : normalizeColumn "Status" = "status" := by decide
  have hs : normalizeColumn "status" = "status" := by decide
  have ht : normalizeColumn "sta tus" = "sta_tus" := by decide
  refine ⟨?_, ?_, ?_⟩
  · simp [columnSelector, hS]
  · simp [columnSelector, hs]
  · simp only [columnSelector, ht]
    rw [if_neg (by decide), show (" td.cell-" ++ "sta_tus" : String) = " td.cell-sta_tus" from rfl]

/-- C6: for a fixed DOM fixture (a list of pages of row handles), the eager
`get_list_of_rows` and the lazy generator `get_total_rows_elements` collected
to completion yield the same number of rows. -/
theorem listRows_rowStream_same_count {α : Type} (pages : List (List α)) :
    (get_list_of_rows pages ([] : List α)).length
      = (get_total_rows_elements pages).length := by
  rw [get_list_of_rows_eq_append]
  simp

/-- C7 counterexample: for a name absent from the registry, `get_locator`
does not return the empty sentinel — the `locator[0]` access in its own
logging call raises `IndexError` inside `get_locator` itself. -/
theorem get_locator_unknown_raises :
    get_locator [("popup", ["css selector", "div.deletePrompt"])] "missing_name"
      = Except.error "IndexError: list index out of range" :=
  rfl

/-- C7 amended: for every registry and every name not present in it,
`get_locator` itself raises the out-of-range access (while formatting its log
message from `locator[0]` and `locator[1]` of the default `[]`); the failure
is at resolve time, not downstream in a caller. -/
theorem get_locator_unknown_always_raises
    (locators : List (String × List String)) (name : String)
    (h : List.lookup name locators = none) :
    get_locator locators name
      = Except.error "IndexError: list index out of range" := by
  simp [get_locator, h]

/-- Witness for C7's amended theorem at a concrete registry and name. -/
theorem get_locator_unknown_always_raises_witness :
    List.lookup "toast" [("popup", ["css selector", "div.deletePrompt"])]
        = (none : Option (List String)) ∧
    get_locator [("popup", ["css selector", "div.deletePrompt"])] "toast"
        = Except.error "IndexError: list index out of range" :=
  ⟨rfl, get_locator_unknown_always_raises
    [("popup", ["css selector", "div.deletePrompt"])] "toast" rfl⟩

/-- C2 counterexample: with pagination controls present but none labelled
`"next"` (here a lone `"prev"` control), `next_page()` does not return
`False` — the loop's `for/else` raises `ValueError`. -/
theorem next_page_no_next_label_raises :
    next_page [⟨"prev", true, true⟩] = Except.error "page is not found." :=
  rfl

/-- C2 amended: restricted to states whose pagination control list is empty
or contains a control labelled `"next"`, `next_page()` raises no error; it
returns `False` (clicking nothing) whenever no `"next"`-labelled control is
clickable — in particular past the last page — and it returns `True` exactly
by clicking a clickable `"next"` control.  (In the remaining states —
controls present, none labelled `"next"` — it raises `ValueError`.) -/
theorem next_page_amended (ctls : List PageCtl)
    (h : ctls = [] ∨ ∃ c ∈ ctls, isNextLabel c = true) :
    (∀ e, next_page ctls ≠ Except.error e) ∧
    ((∀ c ∈ ctls, isNextLabel c = true → isElementClickable c = false) →
      next_page ctls = Except.ok (false, [])) ∧
    (∀ trace, next_page ctls = Except.ok (true, trace) →
      ∃ c, trace = [c] ∧ c ∈ ctls ∧ isNextLabel c = true ∧
        isElementClickable c = true) := by
  cases ctls with
  | nil =>
    refine ⟨by simp [next_page], fun _ => rfl, ?_⟩
    intro trace htr
    simp [next_page] at htr
  | cons c rest =>
    have hex : ∃ d ∈ c :: rest, isNextLabel d = true := by
      rcases h with h | h
      · exact absurd h (by simp)
      · exact h
    cases hfind : (c :: rest).find? isNextLabel with
    | none =>
      exfalso
      obtain ⟨d, hd, hlab⟩ := hex
      rw [List.find?_eq_none] at hfind
      exact absurd hlab (by simpa using hfind d hd)
    | some d =>
      have hdmem : d ∈ c :: rest := List.mem_of_find?_eq_some hfind
      have hdlab : isNextLabel d = true := List.find?_some hfind
      have hval : next_page (c :: rest)
          = if isElementClickable d = true then Except.ok (true, [d])
            else Except.ok (false, []) := by
        rw [show next_page (c :: rest) = nextPageGo (c :: rest) from rfl,
          nextPageGo_eq_find, hfind]
      by_cases hclick : isElementClickable d = true
      · rw [hval, if_pos hclick]
        refine ⟨by simp, ?_, ?_⟩
        · intro hall
          exact absurd (hall d hdmem hdlab) (by simp [hclick])
        · intro trace htr
          obtain rfl : [d] = trace := by
            injection htr with h'
            exact congrArg Prod.snd h'
          exact ⟨d, rfl, hdmem, hdlab, hclick⟩
      · rw [hval, if_neg hclick]
        refine ⟨by simp, fun _ => rfl, ?_⟩
        intro trace htr
        simp at htr

/-- Witness for C2's amended theorem: a lone `"next"` control that is not
clickable (past the last page) yields `False` without error. -/
theorem next_page_amended_witness :
    next_page [⟨"next", false, false⟩] = Except.ok (false, []) :=
  (next_page_amended [⟨"next", false, false⟩] (Or.inr (by decide))).2.1 (by decide)

/-- C4: `get_row` in search mode returns the first row whose column text
contains the value as a case-sensitive substring, and in exact mode the
first row whose column text equals the value; concretely, `"Foo"` matches
the column text `"FooBar"` in search mode but not in exact mode. -/
theorem get_row_search_vs_exact :
    (∀ (rows : List String) (value : String) (i : Nat),
        get_row rows value true = Except.ok i →
        i < rows.length ∧ strContains (rows.getD i "") value = true ∧
          ∀ m, m < i → strContains (rows.getD m "") value = false) ∧
    (∀ (rows : List String) (value : String) (i : Nat),
        get_row rows value false = Except.ok i →
        i < rows.length ∧ rows.getD i "" = value ∧
          ∀ m, m < i → rows.getD m "" ≠ value) ∧
    get_row ["FooBar"] "Foo" true = Except.ok 0 ∧
    get_row ["FooBar"] "Foo" false
      = Except.error "Foo row not found in table" := by
  refine ⟨?_, ?_, rfl, rfl⟩
  · intro rows value i h
    obtain ⟨j, hj, hi, hmj, hprev⟩ := getRowGo_ok_spec value true rows 0 i h
    obtain rfl : i = j := by omega
    refine ⟨hj, by simpa [rowMatches] using hmj, ?_⟩
    intro m hm
    simpa [rowMatches] using hprev m hm
  · intro rows value i h
    obtain ⟨j, hj, hi, hmj, hprev⟩ := getRowGo_ok_spec value false rows 0 i h
    obtain rfl : i = j := by omega
    refine ⟨hj, by simpa [rowMatches] using hmj, ?_⟩
    intro m hm
    simpa [rowMatches] using hprev m hm

/-- Witness for C4 at concrete row streams. -/
theorem get_row_search_vs_exact_witness :
    (0 < (["FooBar"] : List String).length ∧
      strContains ((["FooBar"] : List String).getD 0 "") "Foo" = true ∧
      ∀ m, m < 0 →
        strContains ((["FooBar"] : List String).getD m "") "Foo" = false) ∧
    (0 < (["Foo"] : List String).length ∧
      (["Foo"] : List String).getD 0 "" = "Foo" ∧
      ∀ m, m < 0 → (["Foo"] : List String).getD m "" ≠ "Foo") :=
  ⟨get_row_search_vs_exact.1 ["FooBar"] "Foo" 0 rfl,
   get_row_search_vs_exact.2.1 ["Foo"] "Foo" 0 rfl⟩

/-- C5: lookup and sort are fail-fast — when no row matches, `get_row`
exhausts the stream and raises `ValueError("{value} row not found in
table")`, and when no non-empty header text matches the column, `sort_table`
issues no click and raises `ValueError("Failed to sort the {column}")`. -/
theorem lookup_sort_fail_fast :
    (∀ (rows : List String) (value : String) (s : Bool),
        (∀ t ∈ rows, rowMatches value s t = false) →
        get_row rows value s
          = Except.error (value ++ " row not found in table")) ∧
    (∀ (headers : List TableHeader) (column order : String),
        (∀ th ∈ headers, ¬(th.text ≠ "" ∧ pyLower th.text = pyLower column)) →
        sort_table headers column order
          = ([], Except.error ("Failed to sort the " ++ column))) :=
  ⟨fun rows value s h => getRowGo_exhausted value s rows 0 h,
   fun headers column order h => sortTableGo_no_match column order headers [] h⟩

/-- Witness for C5: an absent value and a bogus column name. -/
theorem lookup_sort_fail_fast_witness :
    get_row ["alpha"] "beta" false
      = Except.error "beta row not found in table" ∧
    sort_table [⟨"Name", none⟩] "bogus" "asc"
      = ([], Except.error "Failed to sort the bogus") :=
  ⟨lookup_sort_fail_fast.1 ["alpha"] "beta" false (by decide),
   lookup_sort_fail_fast.2 [⟨"Name", none⟩] "bogus" "asc" (by decide)⟩

/-- C8: `delete_row` can never return `True`.  Each arm of its action branch
dereferences `self.delete_btn`, `self.close` or `self.cancel`, none of which
is defined anywhere on the `AlertTable` class hierarchy, so after clicking
the row's delete control and waiting for the popup the branch raises
`AttributeError` and the `try/except` returns `False` — for every action
parameter and every driver behaviour. -/
theorem delete_row_never_true (env : DeleteEnv) (action : Option String) :
    delete_row env action = false := by
  obtain ⟨e, he⟩ := deleteRowActionStep_fails action
  obtain ⟨tv, rf, db, pa, pc⟩ := env
  simp only [delete_row, deleteRowBody]
  cases tv <;> cases rf <;> cases db <;> cases pa <;> rw [he] <;> rfl

/-- C10: the façade text read `get_text` returns the sentinel
`"element text not found of locator={name}"` exactly when the
screen-reader-stripped, trimmed text is empty, and the stripped text
itself otherwise. -/
theorem get_text_empty_sentinel (lname : String) (pieces : List TextPiece) :
    get_text lname pieces =
      if strippedText pieces = ""
      then "element text not found of locator=" ++ lname
      else strippedText pieces := by
  by_cases h : strippedText pieces = "" <;>
    simp [get_text, pyLower_eq_empty_iff, h]

/-- C9: `enter_text` clears the field before typing unless the resolved
selector value is the password selector, in which case it only types. -/
theorem enter_text_clears_unless_password
    (locators : List (String × List String)) (lname text b v : String)
    (h : List.lookup lname locators = some [b, v]) :
    enter_text locators lname text true =
      Except.ok (if v = "password" then [TextEvent.keys text]
        else [TextEvent.clear, TextEvent.keys text]) := by
  by_cases hv : v = "password" <;>
    simp [enter_text, get_locator, h, hv]

/-- Witness for C9: a regular field is cleared then typed into; the
password field is typed into without clearing. -/
theorem enter_text_clears_unless_password_witness :
    enter_text
        [("user", ["css selector", "#user"]),
         ("pass", ["css selector", "password"])] "user" "hello" true
      = Except.ok [TextEvent.clear, TextEvent.keys "hello"] ∧
    enter_text
        [("user", ["css selector", "#user"]),
         ("pass", ["css selector", "password"])] "pass" "hello" true
      = Except.ok [TextEvent.keys "hello"] :=
  ⟨enter_text_clears_unless_password _ "user" "hello" "css selector" "#user" rfl,
   enter_text_clears_unless_password _ "pass" "hello" "css selector" "password" rfl⟩

end UIWrapper
